import Mathlib

/-!
# ScreenMirroring relay server (`src/server/main.cpp`)

A shallow embedding of the session registry, the sender/receiver pairing and
forwarding engine, the session-id generator and the HTTP dispatcher, followed
by the properties established about them.

Modelling conventions
* `std::string` is a list of characters (`Str`).
* A `websocket::stream*` is a `Handle` (its address); `nullptr` is `none`.
* `std::map<std::string, std::shared_ptr<Session>>` is an association list with
  unique keys (`AList`); `sessions[id] = s` is `AList.insert`.
* The network is explicit state (`Net`): the frames written so far, oldest
  first, and the lines printed on `std::cerr`.
* Whether a `write` throws is an input of the step that performs it.
-/

namespace ScreenMirroring

/-- A `std::string`. -/
abbrev Str := List Char

/-- The address of a `websocket::stream<beast::tcp_stream>`. -/
abbrev Handle := Nat

/-- The `Session` struct: the id and the two nullable peer pointers. -/
structure Session where
  id : Str
  receiver : Option Handle
  sender : Option Handle
deriving DecidableEq, Repr

/-- The observable network: frames written to connections and the error log. -/
structure Net where
  written : List (Handle × Str)
  cerr : List Str
deriving DecidableEq, Repr

/-- The call `target->write(net::buffer(message))`. `fault = none` is a write that
completes, `fault = some what` a write that throws an exception with that text. -/
def ws_write (fault : Option Str) (target : Handle) (message : Str) (net : Net) :
    Except Str Net :=
  match fault with
  | none => .ok { net with written := net.written ++ [(target, message)] }
  | some what => .error what

/-- The method `Session::send_to_peer` (lines 33-44). The result is `.error` exactly
when an exception leaves the method. -/
def Session.send_to_peer (s : Session) (from_sender : Bool) (message : Str)
    (fault : Option Str) (net : Net) : Except Str (Session × Net) :=
  let target := if from_sender then s.receiver else s.sender
  match target with
  | some t =>
    match ws_write fault t message net with
    | .ok net1 => .ok (s, net1)
    | .error what => .ok (s, { net with cerr := net.cerr ++ ["Send error: ".toList ++ what] })
  | none => .ok (s, net)

/-- The read-and-forward loop of `do_websocket_session` (lines 82-92), run on the
messages read before the read that ends the loop; each message comes with the
fault of the write it triggers. -/
def relay_loop (s : Session) (is_sender : Bool) :
    List (Str × Option Str) → Net → Except Str (Session × Net)
  | [], net => .ok (s, net)
  | (message, fault) :: rest, net =>
    match s.send_to_peer is_sender message fault net with
    | .ok (s1, net1) => relay_loop s1 is_sender rest net1
    | .error e => .error e

/-- The global `sessions` map. -/
abbrev Registry := AList (fun _ : Str => Session)

/-- The bind step of `do_websocket_session` (lines 66-78): `none` is the early
return "Session not found". -/
def ws_bind (sessions : Registry) (session_id : Str) (is_sender : Bool) (ws : Handle) :
    Option Registry :=
  match sessions.lookup session_id with
  | none => none
  | some current_session =>
    some (sessions.insert session_id
      (if is_sender then { current_session with sender := some ws }
       else { current_session with receiver := some ws }))

/-- The cleanup at the end of `do_websocket_session` (lines 102-108). It reads
only `session_id` and `is_sender`. -/
def ws_cleanup (sessions : Registry) (session_id : Str) (is_sender : Bool) : Registry :=
  match sessions.lookup session_id with
  | none => sessions
  | some s =>
    let s1 := if is_sender && s.sender.isSome then { s with sender := none } else s
    let s2 := if !is_sender && s1.receiver.isSome then { s1 with receiver := none } else s1
    sessions.insert session_id s2

/-- The slot of a role: `sender` when `is_sender`, else `receiver`. -/
def Session.slot (s : Session) (is_sender : Bool) : Option Handle :=
  if is_sender then s.sender else s.receiver

/-- The terminating NUL of a string literal. -/
def NUL : Char := Char.ofNat 0

/-- The table `alphanum[]` of `generate_session_id`, with its terminating NUL. -/
def alphanum : List Char :=
  "0123456789ABCDEFGHIJKLMNOPQRSTUVWXYZabcdefghijklmnopqrstuvwxyz".toList ++ [NUL]

/-- The value of `sizeof(alphanum)`. -/
def sizeof_alphanum : Nat := alphanum.length

/-- The distribution `std::uniform_int_distribution<>(a, b)` applied to one raw
output of the engine. The standard library guarantees a value in the closed range
from `a` to `b`, and every value of the range can occur; the reduction below has
both properties. -/
def uniform_int_distribution (a b : Nat) (raw : Nat) : Nat :=
  a + raw % (b - a + 1)

/-- The index drawn in iteration `i` of the loop of `generate_session_id`, where
`gen i` is the raw engine output used by that iteration. -/
def drawn_index (gen : Nat → Nat) (i : Nat) : Nat :=
  uniform_int_distribution 0 (sizeof_alphanum - 2) (gen i)

/-- The function `generate_session_id` (lines 50-58). -/
def generate_session_id (gen : Nat → Nat) : Str :=
  (List.range 6).foldl (fun s i => s ++ [alphanum.getD (drawn_index gen i) NUL]) []

/-- The search `hay.find(needle, pos)` continued on a suffix of `hay` that starts
at offset `off`. -/
def find_at (needle : Str) : Str → Nat → Option Nat
  | [], off => if needle = [] then some off else none
  | c :: cs, off =>
    if needle.isPrefixOf (c :: cs) then some off else find_at needle cs (off + 1)

/-- The call `hay.find(needle, pos)` of `std::string`; `none` is `npos`. -/
def str_find (hay needle : Str) (pos : Nat) : Option Nat :=
  if pos ≤ hay.length then find_at needle (hay.drop pos) pos else none

/-- The call `s.substr(pos, n)`; `n = none` is `npos`. -/
def substr (s : Str) (pos : Nat) (n : Option Nat) : Str :=
  match n with
  | none => s.drop pos
  | some k => (s.drop pos).take k

/-- The value of one query parameter as lines 157-166 extract it: the text from
the end of the first occurrence of `key` in `query` to the next ampersand. The
difference `amp - (key_pos + key.length)` is a `size_t`; it does not wrap for the
two keys used (`query_value_no_wrap`). -/
def query_value (query key : Str) : Str :=
  match str_find query key 0 with
  | none => []
  | some key_pos =>
    match str_find query ['&'] key_pos with
    | none => substr query (key_pos + key.length) none
    | some amp => substr query (key_pos + key.length) (some (amp - (key_pos + key.length)))

/-- The query parsing of `do_http_session` (lines 153-167): the pair `(id, role)`. -/
def parse_query (target : Str) : Str × Str :=
  match str_find target ['?'] 0 with
  | none => ([], [])
  | some q_pos =>
    let query := substr target (q_pos + 1) none
    (query_value query "id=".toList, query_value query "role=".toList)

/-- The function `get_mime_type` (lines 111-116). -/
def get_mime_type (path : Str) : Str :=
  if path.length ≥ 5 ∧ substr path (path.length - 5) none = ".html".toList then
    "text/html".toList
  else if path.length ≥ 3 ∧ substr path (path.length - 3) none = ".js".toList then
    "application/javascript".toList
  else if path.length ≥ 4 ∧ substr path (path.length - 4) none = ".css".toList then
    "text/css".toList
  else "text/plain".toList

/-- What `do_http_session` reads from the request. -/
structure Request where
  is_get : Bool
  target : Str
  is_upgrade : Bool
deriving DecidableEq, Repr

/-- What `do_http_session` does with one request. -/
inductive Reply where
  /-- Status 200 with the JSON body carrying the new session id. -/
  | created (id : Str)
  /-- Status 400 with the given body. -/
  | bad_request (body : Str)
  /-- The call `do_websocket_session(socket, id, is_sender, req)`. -/
  | upgrade (id : Str) (is_sender : Bool)
  /-- Status 404 from the traversal guard. -/
  | not_found (body : Str)
  /-- Status 200 with the content of the file opened at `path`. -/
  | file_ok (path : Str) (mime : Str) (body : Str)
  /-- Status 404 after the file at `path` could not be opened. -/
  | file_missing (path : Str)
  /-- No response: the method is not GET. -/
  | ignored
deriving DecidableEq, Repr

/-- The path given to `std::ifstream`, when the reply opened a file. -/
def Reply.opened : Reply → Option Str
  | .file_ok path _ _ => some path
  | .file_missing path => some path
  | _ => none

/-- The upgrade branch of `do_http_session` (lines 153-178). -/
def upgrade_reply (target : Str) : Reply :=
  let (id, role) := parse_query target
  if id = [] then .bad_request "Missing session ID".toList
  else .upgrade id (role = "sender".toList)

/-- The static-asset branch of `do_http_session` (lines 181-208). `fs path` is the
content of the file at `path`, or `none` when it cannot be opened. -/
def static_reply (target : Str) (fs : Str → Option Str) : Reply :=
  let target := if target = "/".toList ∨ target = [] then "/index.html".toList else target
  if (str_find target "..".toList 0).isSome then .not_found "Not found".toList
  else
    let target :=
      match str_find target ['?'] 0 with
      | some q => substr target 0 (some q)
      | none => target
    let path := "public".toList ++ target
    match fs path with
    | some content => .file_ok path (get_mime_type path) content
    | none => .file_missing path

/-- The function `do_http_session` (lines 118-213) after the request has been read.
`gen` is the random engine and `fs` the file system. -/
def do_http_session (sessions : Registry) (req : Request) (gen : Nat → Nat)
    (fs : Str → Option Str) : Registry × Reply :=
  if req.is_get then
    if req.target = "/create".toList then
      let id := generate_session_id gen
      (sessions.insert id { id := id, receiver := none, sender := none }, .created id)
    else if req.is_upgrade then (sessions, upgrade_reply req.target)
    else (sessions, static_reply req.target fs)
  else (sessions, .ignored)

/-- The request `GET /create`. -/
def create_request : Request :=
  { is_get := true, target := "/create".toList, is_upgrade := false }

/-- Serving one creation request per engine of the list, one after the other. -/
def serve_creates (sessions : Registry) (gens : List (Nat → Nat)) : Registry :=
  gens.foldl (fun reg gen => (do_http_session reg create_request gen (fun _ => none)).1) sessions

/-- The ids returned by the generator for the engines of the list. -/
def generated_ids (gens : List (Nat → Nat)) : List Str :=
  gens.map generate_session_id

/-- A registry holding one fresh session under the given id. -/
def one_session (id : Str) : Registry :=
  (∅ : Registry).insert id { id := id, receiver := none, sender := none }

/-- The pieces of a string between occurrences of a separator. -/
def spec_split_on (sep : Char) : Str → List Str
  | [] => [[]]
  | c :: cs =>
    match spec_split_on sep cs with
    | [] => [[]]
    | piece :: pieces => if c = sep then [] :: piece :: pieces else (c :: piece) :: pieces

/-- A `name=value` pair cut at its first equals sign. -/
def spec_name_value (pair : Str) : Str × Str :=
  (pair.takeWhile (fun c => c != '='), (pair.dropWhile (fun c => c != '=')).drop 1)

/-- The query string as the specification reads it: the text after the first
question mark, split into `name=value` pairs on the ampersand. -/
def spec_query_params (target : Str) : List (Str × Str) :=
  match str_find target ['?'] 0 with
  | none => []
  | some q_pos => (spec_split_on '&' (target.drop (q_pos + 1))).map spec_name_value

/-- The specification's reading of the session id: the value of a parameter named
exactly `id` whose value is not empty, when there is one. -/
def spec_id_param (target : Str) : Option Str :=
  ((spec_query_params target).find? (fun p => p.1 = "id".toList ∧ p.2 ≠ [])).map Prod.snd

/-- The events of one thread that matter for the lock discipline of the registry. -/
inductive Ev where
  /-- Construction of a `lock_guard` on `session_manager_mtx`. -/
  | lock_registry
  /-- Destruction of that guard. -/
  | unlock_registry
  /-- A read or write of the `sessions` map. -/
  | map_access
  /-- Construction of a `lock_guard` on the mutex of a session. -/
  | lock_session
  /-- Destruction of that guard. -/
  | unlock_session
deriving DecidableEq, Repr

/-- The events of the creation path (lines 132-137). -/
def create_events : List Ev :=
  [.lock_registry, .map_access, .unlock_registry]

/-- The events of the bind step (lines 67-78): `find` under the lock, then either
the early return or `sessions[session_id]` and the slot write. -/
def ws_bind_events (sessions : Registry) (session_id : Str) : List Ev :=
  [.lock_registry, .map_access] ++
    (match sessions.lookup session_id with
     | none => [.unlock_registry]
     | some _ => [.map_access, .lock_session, .unlock_session, .unlock_registry])

/-- The events of the cleanup (lines 102-108): `sessions.count(session_id)` in the
condition of the `if`, then, inside its block, the guard, `sessions[session_id]`
and the slot writes. -/
def ws_cleanup_events (sessions : Registry) (session_id : Str) : List Ev :=
  [.map_access] ++
    (match sessions.lookup session_id with
     | none => []
     | some _ => [.lock_registry, .map_access, .lock_session, .unlock_session,
                  .unlock_registry])

/-- Whether every `map_access` of the trace happens while the registry lock is
held; `held` tells whether it is held at the start. -/
def lock_disciplined : Bool → List Ev → Bool
  | _, [] => true
  | _, .lock_registry :: rest => lock_disciplined true rest
  | _, .unlock_registry :: rest => lock_disciplined false rest
  | held, .map_access :: rest => held && lock_disciplined held rest
  | held, .lock_session :: rest => lock_disciplined held rest
  | held, .unlock_session :: rest => lock_disciplined held rest

/-- The frames a connection has been sent, oldest first. -/
def Net.frames_to (net : Net) (h : Handle) : List Str :=
  (net.written.filter (fun w => w.1 = h)).map Prod.snd

/-- The messages of a run of the relay loop whose write completed. -/
def delivered (reads : List (Str × Option Str)) : List Str :=
  (reads.filter (fun p => p.2.isNone)).map Prod.fst

/-- A session id used in the examples. -/
def demo_id : Str := "abc123".toList

/-- The registry after connection 1 has bound as sender of `demo_id` and
connection 2 has then bound as sender of the same session. -/
def rebound_sessions : Registry :=
  ((ws_bind (one_session demo_id) demo_id true 1).bind
    (fun r => ws_bind r demo_id true 2)).getD ∅

/-- The registry after `GET /create` returned the id `000000` and connection 1
bound as sender of that session. -/
def collided_sessions : Registry :=
  (ws_bind (serve_creates ∅ [fun _ => 0]) "000000".toList true 1).getD ∅

theorem send_to_peer_unbound (s : Session) (from_sender : Bool) (message : Str)
    (fault : Option Str) (net : Net) (h : s.slot (!from_sender) = none) :
    s.send_to_peer from_sender message fault net = .ok (s, net) := by
  cases from_sender <;> simp [Session.slot] at h <;> simp [Session.send_to_peer, h]

theorem send_to_peer_bound (s : Session) (from_sender : Bool) (message : Str)
    (fault : Option Str) (net : Net) (t : Handle) (h : s.slot (!from_sender) = some t) :
    ∃ net1, s.send_to_peer from_sender message fault net = .ok (s, net1) ∧
      net1.written = net.written ++ ((delivered [(message, fault)]).map (fun m => (t, m))) := by
  cases from_sender <;> simp [Session.slot] at h <;>
    cases fault <;> simp [Session.send_to_peer, h, ws_write, delivered]

theorem relay_loop_unbound (s : Session) (from_sender : Bool)
    (reads : List (Str × Option Str)) (net : Net) (h : s.slot (!from_sender) = none) :
    relay_loop s from_sender reads net = .ok (s, net) := by
  induction reads with
  | nil => rfl
  | cons p rest ih =>
    obtain ⟨message, fault⟩ := p
    simp [relay_loop, send_to_peer_unbound s from_sender message fault net h, ih]

theorem delivered_cons (p : Str × Option Str) (rest : List (Str × Option Str)) :
    delivered (p :: rest) = delivered [p] ++ delivered rest := by
  obtain ⟨message, fault⟩ := p
  cases fault <;> simp [delivered, List.filter_cons]

theorem relay_loop_bound (s : Session) (from_sender : Bool) (t : Handle)
    (h : s.slot (!from_sender) = some t) (reads : List (Str × Option Str)) (net : Net) :
    ∃ net1, relay_loop s from_sender reads net = .ok (s, net1) ∧
      net1.written = net.written ++ (delivered reads).map (fun m => (t, m)) := by
  induction reads generalizing net with
  | nil => exact ⟨net, rfl, by simp [delivered]⟩
  | cons p rest ih =>
    obtain ⟨message, fault⟩ := p
    obtain ⟨net1, h1, w1⟩ := send_to_peer_bound s from_sender message fault net t h
    obtain ⟨net2, h2, w2⟩ := ih net1
    refine ⟨net2, ?_, ?_⟩
    · simp [relay_loop, h1, h2]
    · rw [w2, w1, delivered_cons (message, fault) rest, List.map_append, List.append_assoc]

theorem delivered_all_ok (reads : List (Str × Option Str)) (h : ∀ p ∈ reads, p.2 = none) :
    delivered reads = reads.map Prod.fst := by
  unfold delivered
  rw [List.filter_eq_self.mpr]
  intro p hp
  simp [h p hp]

theorem frames_of_tagged (t : Handle) (msgs : List Str) :
    ((msgs.map (fun m => (t, m))).filter (fun w => decide (w.1 = t))).map Prod.snd = msgs := by
  induction msgs with
  | nil => rfl
  | cons m rest ih => simp [List.filter_cons, ih]

theorem frames_to_append_same (net net1 : Net) (t : Handle) (msgs : List Str)
    (h : net1.written = net.written ++ msgs.map (fun m => (t, m))) :
    net1.frames_to t = net.frames_to t ++ msgs := by
  unfold Net.frames_to
  rw [h, List.filter_append, List.map_append, frames_of_tagged t msgs]

theorem frames_to_append_other (net net1 : Net) (t h : Handle) (msgs : List Str)
    (hne : h ≠ t) (hw : net1.written = net.written ++ msgs.map (fun m => (t, m))) :
    net1.frames_to h = net.frames_to h := by
  unfold Net.frames_to
  rw [hw, List.filter_append, List.map_append]
  have : (msgs.map (fun m => (t, m))).filter (fun w => decide (w.1 = h)) = [] := by
    induction msgs with
    | nil => rfl
    | cons m rest ih => simp [List.filter_cons, ih, Ne.symm hne]
  rw [this]
  simp

/-! ## Bind and cleanup -/

theorem ws_cleanup_other (sessions : Registry) (session_id k : Str) (is_sender : Bool)
    (hk : k ≠ session_id) :
    (ws_cleanup sessions session_id is_sender).lookup k = sessions.lookup k := by
  unfold ws_cleanup
  cases hs : sessions.lookup session_id with
  | none => rfl
  | some s => simp [AList.lookup_insert_ne hk]

theorem ws_cleanup_absent (sessions : Registry) (session_id : Str) (is_sender : Bool)
    (hs : sessions.lookup session_id = none) :
    ws_cleanup sessions session_id is_sender = sessions := by
  simp [ws_cleanup, hs]

theorem ws_cleanup_found (sessions : Registry) (session_id : Str) (is_sender : Bool)
    (s : Session) (hs : sessions.lookup session_id = some s) :
    ∃ s1, (ws_cleanup sessions session_id is_sender).lookup session_id = some s1 ∧
      s1.slot is_sender = none ∧ s1.slot (!is_sender) = s.slot (!is_sender) ∧ s1.id = s.id := by
  unfold ws_cleanup
  rw [hs]
  simp only [AList.lookup_insert]
  refine ⟨_, rfl, ?_⟩
  cases is_sender <;> cases hsl : s.sender <;> cases hrl : s.receiver <;>
    simp [Session.slot, hsl, hrl]

/-- C1 (as amended): the disconnect cleanup for role `is_sender` of a session found
in the registry leaves that role's slot empty whatever handle it held, and leaves
the opposite slot and the session id as they were; the cleanup makes no comparison
with the handle of the connection that runs it. -/
theorem C1_cleanup_clears_any_occupant (sessions : Registry) (session_id : Str)
    (is_sender : Bool) (s : Session) (hs : sessions.lookup session_id = some s) :
    ∃ s1, (ws_cleanup sessions session_id is_sender).lookup session_id = some s1 ∧
      s1.slot is_sender = none ∧ s1.slot (!is_sender) = s.slot (!is_sender) ∧ s1.id = s.id :=
  ws_cleanup_found sessions session_id is_sender s hs

/-- C1 (counterexample): connection 1 binds as sender of a session, connection 2
then binds as sender of the same session, so the sender slot holds handle 2; the
cleanup of connection 1 does not leave handle 2 in the slot. -/
theorem C1_counterexample :
    (rebound_sessions.lookup demo_id).map (fun s => s.slot true) = some (some 2) ∧
    (2 : Handle) ≠ 1 ∧
    ((ws_cleanup rebound_sessions demo_id true).lookup demo_id).map (fun s => s.slot true)
      ≠ some (some 2) := by
  decide

/-- C1 (witness): the amended statement at the registry in which connection 2 has
rebound the sender role. -/
theorem C1_cleanup_clears_any_occupant_witness :
    rebound_sessions.lookup demo_id = some (Session.mk demo_id none (some 2)) ∧
    ∃ s1, (ws_cleanup rebound_sessions demo_id true).lookup demo_id = some s1 ∧
      s1.slot true = none ∧
      s1.slot (!true) = (Session.mk demo_id none (some 2)).slot (!true) ∧
      s1.id = (Session.mk demo_id none (some 2)).id :=
  ⟨by decide, C1_cleanup_clears_any_occupant rebound_sessions demo_id true
    (Session.mk demo_id none (some 2)) (by decide)⟩

/-- C2: with the sender slot holding `S` and the receiver slot holding `R`, running
the forward step on the messages of `reads` in order from the sender, all writes
completing, returns normally with the session unchanged, appends to the frames
written exactly those messages addressed to `R`, unchanged, once each and in that
order, so that `R` has been sent its earlier frames followed by the messages and
`S` (a connection other than `R`) has been sent nothing new; and symmetrically
from the receiver towards `S`. -/
theorem C2_ordered_verbatim_delivery (s : Session) (S R : Handle)
    (reads : List (Str × Option Str)) (net : Net)
    (hS : s.sender = some S) (hR : s.receiver = some R)
    (hok : ∀ p ∈ reads, p.2 = none) :
    (∃ net1, relay_loop s true reads net = .ok (s, net1) ∧
      net1.written = net.written ++ (reads.map Prod.fst).map (fun m => (R, m)) ∧
      net1.frames_to R = net.frames_to R ++ reads.map Prod.fst ∧
      (S ≠ R → net1.frames_to S = net.frames_to S)) ∧
    (∃ net1, relay_loop s false reads net = .ok (s, net1) ∧
      net1.written = net.written ++ (reads.map Prod.fst).map (fun m => (S, m)) ∧
      net1.frames_to S = net.frames_to S ++ reads.map Prod.fst ∧
      (S ≠ R → net1.frames_to R = net.frames_to R)) := by
  constructor
  · obtain ⟨net1, h1, w1⟩ := relay_loop_bound s true R (by simp [Session.slot, hR]) reads net
    rw [delivered_all_ok reads hok] at w1
    exact ⟨net1, h1, w1, frames_to_append_same net net1 R _ w1,
      fun hne => frames_to_append_other net net1 R S _ hne w1⟩
  · obtain ⟨net1, h1, w1⟩ := relay_loop_bound s false S (by simp [Session.slot, hS]) reads net
    rw [delivered_all_ok reads hok] at w1
    exact ⟨net1, h1, w1, frames_to_append_same net net1 S _ w1,
      fun hne => frames_to_append_other net net1 S R _ (Ne.symm hne) w1⟩

/-- C2 (witness): a session with sender 5 and receiver 7 forwarding two messages
from the sender: connection 7 is sent both, in order, and connection 5 nothing. -/
theorem C2_ordered_verbatim_delivery_witness :
    ∃ net1, relay_loop (Session.mk demo_id (some 7) (some 5)) true
        [("m1".toList, none), ("m2".toList, none)] (Net.mk [] []) =
          .ok (Session.mk demo_id (some 7) (some 5), net1) ∧
      net1.frames_to 7 = ["m1".toList, "m2".toList] ∧ net1.frames_to 5 = [] := by
  obtain ⟨⟨net1, h1, _, h7, h5⟩, _⟩ :=
    C2_ordered_verbatim_delivery (Session.mk demo_id (some 7) (some 5)) 5 7
      [("m1".toList, none), ("m2".toList, none)] (Net.mk [] []) rfl rfl (by decide)
  exact ⟨net1, h1, h7, h5 (by decide)⟩

/-- C3: for every session, source role, payload and outcome of the write,
`send_to_peer` returns normally, with the session (both slots) unchanged; and when
the slot opposite the source role is empty the network is left as it was, so no
frame is written to any connection. -/
theorem C3_forward_best_effort (s : Session) (from_sender : Bool) (message : Str)
    (fault : Option Str) (net : Net) :
    ∃ net1, s.send_to_peer from_sender message fault net = .ok (s, net1) ∧
      (s.slot (!from_sender) = none → net1 = net) ∧
      (fault ≠ none → net1.written = net.written) := by
  cases hslot : s.slot (!from_sender) with
  | none =>
    exact ⟨net, send_to_peer_unbound s from_sender message fault net hslot,
      fun _ => rfl, fun _ => rfl⟩
  | some t =>
    obtain ⟨net1, h1, w1⟩ := send_to_peer_bound s from_sender message fault net t hslot
    refine ⟨net1, h1, fun h => by simp at h, fun hf => ?_⟩
    cases fault with
    | none => exact absurd rfl hf
    | some what => simpa [delivered] using w1

/-- C3 (witness): a sender forwarding into an empty receiver slot while the write
would throw: the call returns normally and the network is as before. -/
theorem C3_forward_best_effort_witness :
    ∃ net1, (Session.mk demo_id none (some 5)).send_to_peer true "m".toList
        (some "broken pipe".toList) (Net.mk [(9, "old".toList)] []) =
          .ok (Session.mk demo_id none (some 5), net1) ∧
      net1 = Net.mk [(9, "old".toList)] [] ∧
      net1.written = [(9, "old".toList)] := by
  obtain ⟨net1, h1, h2, h3⟩ :=
    C3_forward_best_effort (Session.mk demo_id none (some 5)) true "m".toList
      (some "broken pipe".toList) (Net.mk [(9, "old".toList)] [])
  exact ⟨net1, h1, h2 (by decide), h3 (by simp)⟩

/-- C5: the disconnect cleanup for one role of session `session_id` leaves every
other session of the registry as it was; when the session is registered the
opposite role's slot is as it was and the role's own slot is empty, after which a
forward from the opposite role returns normally and leaves the network untouched;
when the session is not registered the registry is unchanged. -/
theorem C5_disconnect_isolation (sessions : Registry) (session_id : Str) (is_sender : Bool) :
    (∀ k, k ≠ session_id →
      (ws_cleanup sessions session_id is_sender).lookup k = sessions.lookup k) ∧
    (sessions.lookup session_id = none →
      ws_cleanup sessions session_id is_sender = sessions) ∧
    (∀ s, sessions.lookup session_id = some s →
      ∃ s1, (ws_cleanup sessions session_id is_sender).lookup session_id = some s1 ∧
        s1.slot (!is_sender) = s.slot (!is_sender) ∧
        s1.slot is_sender = none ∧
        ∀ (message : Str) (fault : Option Str) (net : Net),
          s1.send_to_peer (!is_sender) message fault net = .ok (s1, net)) := by
  refine ⟨fun k hk => ws_cleanup_other sessions session_id k is_sender hk,
    ws_cleanup_absent sessions session_id is_sender, fun s hs => ?_⟩
  obtain ⟨s1, h1, hslot, hopp, _⟩ := ws_cleanup_found sessions session_id is_sender s hs
  exact ⟨s1, h1, hopp, hslot, fun message fault net =>
    send_to_peer_unbound s1 (!is_sender) message fault net (by simpa using hslot)⟩

/-- C5 (witness): the cleanup of the sender of `demo_id` in the registry in which
connection 2 holds the sender slot. -/
theorem C5_disconnect_isolation_witness :
    ∃ s1, (ws_cleanup rebound_sessions demo_id true).lookup demo_id = some s1 ∧
      s1.slot (!true) = (Session.mk demo_id none (some 2)).slot (!true) ∧
      s1.slot true = none ∧
      ∀ (message : Str) (fault : Option Str) (net : Net),
        s1.send_to_peer (!true) message fault net = .ok (s1, net) :=
  (C5_disconnect_isolation rebound_sessions demo_id true).2.2
    (Session.mk demo_id none (some 2)) (by decide)

/-! ## Session ids -/

theorem sizeof_alphanum_eq : sizeof_alphanum = 63 := by decide

theorem alphanum_symbol (k : Nat) (hk : k < 62) :
    ∃ c, alphanum[k]? = some c ∧ alphanum.getD k NUL = c ∧ c ≠ NUL ∧
      (c.isDigit = true ∨ c.isUpper = true ∨ c.isLower = true) := by
  interval_cases k <;> exact ⟨_, rfl, rfl, by decide, by decide⟩

theorem drawn_index_le (gen : Nat → Nat) (i : Nat) : drawn_index gen i ≤ 61 := by
  unfold drawn_index uniform_int_distribution
  rw [sizeof_alphanum_eq]
  have : gen i % 62 < 62 := Nat.mod_lt _ (by decide)
  omega

theorem generate_session_id_eq (gen : Nat → Nat) :
    generate_session_id gen =
      (List.range 6).map (fun i => alphanum.getD (drawn_index gen i) NUL) := by
  have hr : List.range 6 = [0, 1, 2, 3, 4, 5] := by decide
  simp [generate_session_id, hr]

/-- C9: whatever the engine outputs, `generate_session_id` returns six characters,
each a digit, an upper-case or a lower-case letter; every index drawn is at most 61,
hence below `sizeof(alphanum)`, which is 63, and the table entry it selects exists
and is not the terminating NUL. -/
theorem C9_session_id_format (gen : Nat → Nat) :
    (generate_session_id gen).length = 6 ∧
    (∀ c ∈ generate_session_id gen,
      c.isDigit = true ∨ c.isUpper = true ∨ c.isLower = true) ∧
    sizeof_alphanum = 63 ∧
    ∀ i, drawn_index gen i ≤ 61 ∧ drawn_index gen i < sizeof_alphanum ∧
      ∃ c, alphanum[drawn_index gen i]? = some c ∧ c ≠ NUL := by
  refine ⟨?_, ?_, sizeof_alphanum_eq, fun i => ?_⟩
  · simp [generate_session_id_eq]
  · intro c hc
    rw [generate_session_id_eq] at hc
    obtain ⟨i, _, rfl⟩ := List.mem_map.mp hc
    obtain ⟨c, _, hget, _, hsym⟩ :=
      alphanum_symbol (drawn_index gen i) (by have := drawn_index_le gen i; omega)
    rw [hget]
    exact hsym
  · have hle := drawn_index_le gen i
    obtain ⟨c, hc, _, hnul, _⟩ := alphanum_symbol (drawn_index gen i) (by omega)
    exact ⟨hle, by rw [sizeof_alphanum_eq]; omega, c, hc, hnul⟩

/-! ## Lock discipline -/

/-- C10: the creation path and the bind step touch the `sessions` map only with
the registry lock held, but the cleanup does not: its first map access, the call
`sessions.count(session_id)` in the condition of the `if`, comes before the guard
is constructed. -/
theorem C10_cleanup_reads_map_unlocked (sessions : Registry) (session_id : Str) :
    lock_disciplined false create_events = true ∧
    lock_disciplined false (ws_bind_events sessions session_id) = true ∧
    lock_disciplined false (ws_cleanup_events sessions session_id) = false := by
  refine ⟨rfl, ?_, ?_⟩
  · unfold ws_bind_events
    cases sessions.lookup session_id <;> rfl
  · unfold ws_cleanup_events
    cases sessions.lookup session_id <;> rfl

/-! ## Static assets -/

theorem find_at_isSome (needle hay : Str) (off : Nat) :
    (find_at needle hay off).isSome = true ↔ needle <:+: hay := by
  induction hay generalizing off with
  | nil =>
    by_cases hn : needle = [] <;> simp [find_at, hn]
  | cons c cs ih =>
    unfold find_at
    by_cases hp : needle.isPrefixOf (c :: cs) = true
    · simp only [hp, if_true, Option.isSome_some, true_iff]
      exact (List.isPrefixOf_iff_prefix.mp hp).isInfix
    · simp only [hp, Bool.false_eq_true, if_false, ih, List.infix_cons_iff]
      constructor
      · exact fun h => Or.inr h
      · rintro (h | h)
        · exact absurd (List.isPrefixOf_iff_prefix.mpr h) hp
        · exact h

theorem str_find_isSome (hay needle : Str) :
    (str_find hay needle 0).isSome = true ↔ needle <:+: hay := by
  simp [str_find, find_at_isSome]

theorem substr_zero_within (needle s : Str) (q : Nat) (h : needle <:+: substr s 0 (some q)) :
    needle <:+: s := by
  simp only [substr, List.drop_zero] at h
  exact h.trans (List.take_prefix q s).isInfix

theorem static_reply_opened (target : Str) (fs : Str → Option Str) (path : Str)
    (hopen : (static_reply target fs).opened = some path) :
    ∃ t, path = "public".toList ++ t ∧ ¬ "..".toList <:+: t := by
  unfold static_reply at hopen
  simp only [] at hopen
  generalize (if target = "/".toList ∨ target = [] then "/index.html".toList else target)
    = t0 at hopen
  by_cases hfind : (str_find t0 "..".toList 0).isSome = true
  · rw [if_pos hfind] at hopen
    simp [Reply.opened] at hopen
  · have hclean : ¬ "..".toList <:+: t0 := fun h => hfind ((str_find_isSome _ _).mpr h)
    rw [if_neg hfind] at hopen
    cases hq : str_find t0 ['?'] 0 with
    | none =>
      rw [hq] at hopen
      refine ⟨t0, ?_, hclean⟩
      cases hfs : fs ("public".toList ++ t0) <;> rw [hfs] at hopen <;>
        simpa [Reply.opened] using hopen.symm
    | some q =>
      rw [hq] at hopen
      refine ⟨substr t0 0 (some q), ?_, fun h => hclean (substr_zero_within _ _ _ h)⟩
      cases hfs : fs ("public".toList ++ substr t0 0 (some q)) <;> rw [hfs] at hopen <;>
        simpa [Reply.opened] using hopen.symm

theorem static_reply_guard (target : Str) (fs : Str → Option Str)
    (hdots : "..".toList <:+: target) :
    static_reply target fs = .not_found "Not found".toList := by
  have hroot : ¬ (target = "/".toList ∨ target = []) := by
    rintro (h | h) <;> rw [h] at hdots <;> revert hdots <;> decide
  have hfind : (str_find target "..".toList 0).isSome = true :=
    (str_find_isSome _ _).mpr hdots
  unfold static_reply
  simp only [if_neg hroot, hfind, if_true]

/-- C7: a GET request that is neither `/create` nor an upgrade and whose target
contains `..` is answered not-found without any file being opened; and whatever
the request, a path that is opened is `public` followed by a text without `..`. -/
theorem C7_traversal_guard (sessions : Registry) (req : Request) (gen : Nat → Nat)
    (fs : Str → Option Str) :
    (req.is_get = true → req.target ≠ "/create".toList → req.is_upgrade = false →
      "..".toList <:+: req.target →
      (do_http_session sessions req gen fs).2 = .not_found "Not found".toList ∧
      (do_http_session sessions req gen fs).2.opened = none) ∧
    (∀ path, (do_http_session sessions req gen fs).2.opened = some path →
      ∃ t, path = "public".toList ++ t ∧ ¬ "..".toList <:+: t) := by
  constructor
  · intro hget hcreate hup hdots
    have hup1 : ¬ req.is_upgrade = true := by simp [hup]
    unfold do_http_session
    rw [if_pos hget, if_neg hcreate, if_neg hup1, static_reply_guard _ fs hdots]
    exact ⟨rfl, rfl⟩
  · intro path hopen
    unfold do_http_session at hopen
    by_cases hget : req.is_get = true
    swap
    · simp [hget, Reply.opened] at hopen
    rw [if_pos hget] at hopen
    by_cases hcreate : req.target = "/create".toList
    · rw [if_pos hcreate] at hopen
      simp [Reply.opened] at hopen
    rw [if_neg hcreate] at hopen
    by_cases hup : req.is_upgrade = true
    · rw [if_pos hup] at hopen
      simp only [upgrade_reply] at hopen
      split at hopen <;> simp [Reply.opened] at hopen
    · rw [if_neg hup] at hopen
      exact static_reply_opened _ fs path hopen

/-- C7 (witness): the request `GET /../secrets` is answered not-found with no file
opened, and the path opened for `GET /a.js?v=1` is `public/a.js`, free of `..`. -/
theorem C7_traversal_guard_witness :
    ((do_http_session ∅ (Request.mk true "/../secrets".toList false) (fun _ => 0)
        (fun _ => none)).2 = .not_found "Not found".toList ∧
      (do_http_session ∅ (Request.mk true "/../secrets".toList false) (fun _ => 0)
        (fun _ => none)).2.opened = none) ∧
    ∃ t, "public/a.js".toList = "public".toList ++ t ∧ ¬ "..".toList <:+: t :=
  ⟨(C7_traversal_guard ∅ (Request.mk true "/../secrets".toList false) (fun _ => 0)
      (fun _ => none)).1 rfl (by decide) rfl (by decide),
    (C7_traversal_guard ∅ (Request.mk true "/a.js?v=1".toList false) (fun _ => 0)
      (fun _ => none)).2 "public/a.js".toList (by decide)⟩

/-! ## Pairing requests -/

theorem find_at_found (needle hay : Str) (off p : Nat) (h : find_at needle hay off = some p) :
    off ≤ p ∧ needle <+: hay.drop (p - off) := by
  induction hay generalizing off with
  | nil =>
    unfold find_at at h
    by_cases hn : needle = []
    · rw [if_pos hn, Option.some.injEq] at h
      subst h
      subst hn
      simp
    · rw [if_neg hn] at h
      exact absurd h (by simp)
  | cons c cs ih =>
    unfold find_at at h
    by_cases hp : needle.isPrefixOf (c :: cs) = true
    · rw [if_pos hp, Option.some.injEq] at h
      subst h
      simpa using List.isPrefixOf_iff_prefix.mp hp
    · rw [if_neg hp] at h
      obtain ⟨hle, hpre⟩ := ih (off + 1) h
      refine ⟨by omega, ?_⟩
      have hstep : p - off = (p - (off + 1)) + 1 := by omega
      rw [hstep, List.drop_succ_cons]
      exact hpre

/-- The subtraction `amp - (key_pos + key.length)` of `query_value` never wraps: the
ampersand found from `key_pos` on lies behind the occurrence of a key that has no
ampersand in it, as is the case for `id=` and `role=`. -/
theorem query_value_no_wrap (query key : Str) (key_pos amp : Nat) (hkey : '&' ∉ key)
    (h1 : str_find query key 0 = some key_pos)
    (h2 : str_find query ['&'] key_pos = some amp) :
    key_pos + key.length ≤ amp := by
  unfold str_find at h1 h2
  rw [if_pos (Nat.zero_le _), List.drop_zero] at h1
  by_cases hlen : key_pos ≤ query.length
  swap
  · rw [if_neg hlen] at h2
    exact absurd h2 (by simp)
  rw [if_pos hlen] at h2
  obtain ⟨_, ⟨rest1, hkeypre⟩⟩ := find_at_found _ _ _ _ h1
  obtain ⟨hle, ⟨rest2, hamp⟩⟩ := find_at_found _ _ _ _ h2
  rw [Nat.sub_zero] at hkeypre
  by_contra hlt
  have hi : amp - key_pos < key.length := by omega
  have hat : (query.drop key_pos)[amp - key_pos]? = some '&' := by
    have h0 : ((query.drop key_pos).drop (amp - key_pos))[0]? = some '&' := by
      rw [← hamp]
      simp
    rw [List.getElem?_drop] at h0
    simpa using h0
  rw [← hkeypre, List.getElem?_append_left hi] at hat
  exact hkey (List.getElem?_mem hat)

/-- What the pairing branch does on every request: the registry is left alone; the
reply is bad-request exactly when the text extracted for `id=` is empty, and else
the relay loop is called with that text, as sender exactly when the text extracted
for `role=` is `sender`. -/
theorem pairing_reply (sessions : Registry) (req : Request) (gen : Nat → Nat)
    (fs : Str → Option Str) (hget : req.is_get = true)
    (hcreate : req.target ≠ "/create".toList) (hup : req.is_upgrade = true) :
    (do_http_session sessions req gen fs).1 = sessions ∧
    ((parse_query req.target).1 = [] →
      (do_http_session sessions req gen fs).2 = .bad_request "Missing session ID".toList) ∧
    ((parse_query req.target).1 ≠ [] →
      (do_http_session sessions req gen fs).2 =
        .upgrade (parse_query req.target).1
          (decide ((parse_query req.target).2 = "sender".toList))) := by
  unfold do_http_session
  rw [if_pos hget, if_neg hcreate, if_pos hup]
  refine ⟨rfl, fun h => ?_, fun h => ?_⟩
  · show upgrade_reply req.target = _
    unfold upgrade_reply
    generalize parse_query req.target = pq at h
    obtain ⟨id, role⟩ := pq
    exact if_pos h
  · show upgrade_reply req.target = _
    unfold upgrade_reply
    generalize parse_query req.target = pq at h
    obtain ⟨id, role⟩ := pq
    exact if_neg h

/-- C6 (divergence): three upgrade requests on which the id taken by the dispatcher
differs from the value of the parameter named exactly `id`. For `?sid=zzz&id=abc123`
the relay loop is called with `zzz` although the `id` parameter is `abc123`; for
`?sid=zzz` it is called with `zzz` although there is no `id` parameter; for
`?xid=&id=abc123` the reply is bad-request although the `id` parameter is
`abc123`. -/
theorem C6_id_parameter_mismatch :
    ((do_http_session ∅ (Request.mk true "/ws?sid=zzz&id=abc123".toList true) (fun _ => 0)
        (fun _ => none)).2 = .upgrade "zzz".toList false ∧
      spec_id_param "/ws?sid=zzz&id=abc123".toList = some "abc123".toList) ∧
    ((do_http_session ∅ (Request.mk true "/ws?sid=zzz".toList true) (fun _ => 0)
        (fun _ => none)).2 = .upgrade "zzz".toList false ∧
      spec_id_param "/ws?sid=zzz".toList = none) ∧
    ((do_http_session ∅ (Request.mk true "/ws?xid=&id=abc123".toList true) (fun _ => 0)
        (fun _ => none)).2 = .bad_request "Missing session ID".toList ∧
      spec_id_param "/ws?xid=&id=abc123".toList = some "abc123".toList) := by
  decide

/-! ## Session creation -/

theorem create_step (sessions : Registry) (gen : Nat → Nat) (fs : Str → Option Str) :
    (do_http_session sessions create_request gen fs).1 =
      sessions.insert (generate_session_id gen)
        (Session.mk (generate_session_id gen) none none) := by
  unfold do_http_session
  rw [if_pos (by rfl), if_pos (by rfl)]

theorem serve_creates_cons (sessions : Registry) (gen : Nat → Nat) (gens : List (Nat → Nat)) :
    serve_creates sessions (gen :: gens) =
      serve_creates (sessions.insert (generate_session_id gen)
        (Session.mk (generate_session_id gen) none none)) gens := by
  simp only [serve_creates, List.foldl_cons, create_step]

theorem serve_creates_other (sessions : Registry) (gens : List (Nat → Nat)) (k : Str)
    (hk : k ∉ generated_ids gens) :
    (serve_creates sessions gens).lookup k = sessions.lookup k := by
  induction gens generalizing sessions with
  | nil => rfl
  | cons gen gens ih =>
    simp only [generated_ids, List.map_cons, List.mem_cons, not_or] at hk
    rw [serve_creates_cons, ih _ hk.2, AList.lookup_insert_ne hk.1]

theorem serve_creates_generated (sessions : Registry) (gens : List (Nat → Nat)) (k : Str)
    (hk : k ∈ generated_ids gens) :
    (serve_creates sessions gens).lookup k = some (Session.mk k none none) := by
  induction gens generalizing sessions with
  | nil => simp [generated_ids] at hk
  | cons gen gens ih =>
    rw [serve_creates_cons]
    by_cases hin : k ∈ generated_ids gens
    · exact ih _ hin
    · simp only [generated_ids, List.map_cons, List.mem_cons] at hk
      rcases hk with hk | hk
      · rw [serve_creates_other _ _ _ hin, hk, AList.lookup_insert]
      · exact absurd hk hin

theorem serve_creates_length (sessions : Registry) (gens : List (Nat → Nat))
    (hnodup : (generated_ids gens).Nodup)
    (hfresh : ∀ k ∈ generated_ids gens, sessions.lookup k = none) :
    (serve_creates sessions gens).entries.length = sessions.entries.length + gens.length := by
  induction gens generalizing sessions with
  | nil => rfl
  | cons gen gens ih =>
    simp only [generated_ids, List.map_cons, List.nodup_cons] at hnodup
    have hnew : generate_session_id gen ∉ sessions :=
      AList.lookup_eq_none.mp (hfresh _ (by simp [generated_ids]))
    rw [serve_creates_cons, ih _ hnodup.2, AList.insert_entries_of_neg hnew]
    · simp only [List.length_cons, List.length_cons]
      omega
    · intro k hk
      have hne : k ≠ generate_session_id gen := fun h => hnodup.1 (h ▸ hk)
      rw [AList.lookup_insert_ne hne]
      exact hfresh k (by simp only [generated_ids, List.map_cons, List.mem_cons]; exact Or.inr hk)

/-- C8 (as amended): after serving a sequence of creation requests, every generated
id is mapped to a fresh session with both slots empty and every id that was not
generated is mapped as before; when the generated ids are pairwise distinct and
none of them was registered, the registry has exactly one more entry per request. -/
theorem C8_creation_registry (sessions : Registry) (gens : List (Nat → Nat)) :
    (∀ k, k ∈ generated_ids gens →
      (serve_creates sessions gens).lookup k = some (Session.mk k none none)) ∧
    (∀ k, k ∉ generated_ids gens →
      (serve_creates sessions gens).lookup k = sessions.lookup k) ∧
    ((generated_ids gens).Nodup →
      (∀ k ∈ generated_ids gens, sessions.lookup k = none) →
      (serve_creates sessions gens).entries.length = sessions.entries.length + gens.length) :=
  ⟨fun k hk => serve_creates_generated sessions gens k hk,
    fun k hk => serve_creates_other sessions gens k hk,
    serve_creates_length sessions gens⟩

/-- C8 (counterexample): two creation requests for which the generator returns
`000000` both times leave one entry in an empty registry, not two; and one such
request on a registry whose session `000000` has connection 1 bound as sender
leaves the number of entries unchanged and replaces that session. -/
theorem C8_counterexample :
    generated_ids [fun _ => 0, fun _ => 0] = ["000000".toList, "000000".toList] ∧
    (serve_creates ∅ [fun _ => 0, fun _ => 0]).entries.length
      ≠ (∅ : Registry).entries.length + 2 ∧
    (collided_sessions.lookup "000000".toList
      = some (Session.mk "000000".toList none (some 1))) ∧
    (serve_creates collided_sessions [fun _ => 0]).entries.length
      ≠ collided_sessions.entries.length + 1 ∧
    (serve_creates collided_sessions [fun _ => 0]).lookup "000000".toList
      ≠ collided_sessions.lookup "000000".toList := by
  decide

/-- C8 (witness): two requests whose ids `000000` and `111111` are distinct and not
registered beside the session `abc123`. -/
theorem C8_creation_registry_witness :
    (serve_creates rebound_sessions [fun _ => 0, fun _ => 1]).lookup "111111".toList
      = some (Session.mk "111111".toList none none) ∧
    (serve_creates rebound_sessions [fun _ => 0, fun _ => 1]).lookup demo_id
      = rebound_sessions.lookup demo_id ∧
    (serve_creates rebound_sessions [fun _ => 0, fun _ => 1]).entries.length
      = rebound_sessions.entries.length + 2 :=
  ⟨(C8_creation_registry rebound_sessions [fun _ => 0, fun _ => 1]).1 _ (by decide),
    (C8_creation_registry rebound_sessions [fun _ => 0, fun _ => 1]).2.1 _ (by decide),
    (C8_creation_registry rebound_sessions [fun _ => 0, fun _ => 1]).2.2
      (by decide) (by decide)⟩

end ScreenMirroring
